import Mathlib

set_option maxRecDepth 100000

/-
  Verification development for the agentkit-chat repository: a Next.js
  front-end plus a thin server-side session broker.  The build
  configuration (next.config.ts) is embedded directly from its source;
  the create-session broker and the client orchestrator are modelled
  from the specification, since their source files are not part of the
  snapshot under verification.
-/

/- ===== next.config.ts : webpack hook ===== -/

/-- The shape of the webpack configuration object as the hook touches it:
a `resolve.alias` mapping (possibly absent, i.e. `null`/`undefined`) and the
remainder of the configuration, which the hook never inspects. -/
structure WebpackConfig (α : Type) where
  resolveAlias : Option (List (String × String))
  rest : α
deriving DecidableEq, Repr

/-- The `webpack` customization hook of `nextConfig`:
`config.resolve.alias = ⟨spread of (config.resolve.alias ?? empty)⟩; return config`.
A single object spread with no added keys copies the association entries
unchanged. -/
def webpackHook {α : Type} (config : WebpackConfig α) : WebpackConfig α :=
  { config with resolveAlias := some (config.resolveAlias.getD []) }

/-- The alias mapping a configuration carries: the entries of
`resolve.alias`, with an absent mapping read as the empty one. -/
def aliasEntries {α : Type} (config : WebpackConfig α) : List (String × String) :=
  config.resolveAlias.getD []

/- ===== next.config.ts : headers ===== -/

/-- The Content-Security-Policy directive strings of `nextConfig.headers`,
exactly as listed in the source before being joined. -/
def cspDirectiveStrings : List String :=
  ["default-src 'self'",
   "script-src 'self' 'unsafe-inline' 'unsafe-eval' https://cdn.platform.openai.com",
   "connect-src 'self' https://api.openai.com https://clientstream.launchdarkly.com https://events.launchdarkly.com https://api-js.mixpanel.com",
   "style-src 'self' 'unsafe-inline'",
   "img-src 'self' data: https:",
   "font-src 'self' data:",
   "frame-src 'self'",
   "worker-src 'self' blob:"]

/-- The Content-Security-Policy header value: the directives joined with
a semicolon and a space, as `join("; ")` does in the source. -/
def cspValue : String := String.intercalate "; " cspDirectiveStrings

/-- One key/value header as produced by `nextConfig.headers`. -/
structure HeaderEntry where
  key : String
  value : String
deriving DecidableEq, Repr

/-- One header rule: a path pattern and the headers applied to matching
responses. -/
structure HeaderRule where
  source : String
  entries : List HeaderEntry
deriving DecidableEq, Repr

/-- The list returned by `nextConfig.headers`: one rule, with the
catch-all source pattern, carrying the static Content-Security-Policy
header. -/
def nextHeaders : List HeaderRule :=
  [{ source := "/(.*)", entries := [{ key := "Content-Security-Policy", value := cspValue }] }]

/-- Matching semantics of the one source pattern the configuration uses:
the pattern matches a slash followed by anything, i.e. every request path. -/
def sourceMatches (pattern path : String) : Bool :=
  if pattern = "/(.*)" then path.data.head? == some '/' else false

/-- Split a character list at every occurrence of the separator. -/
def splitOnChar (sep : Char) : List Char → List (List Char)
  | [] => [[]]
  | c :: cs =>
    match splitOnChar sep cs with
    | [] => if c = sep then [[], [c]] else [[c]]
    | t :: ts => if c = sep then [] :: t :: ts else (c :: t) :: ts

/-- Drop the single leading space left after splitting a CSP value at its
semicolons (the directives were joined with a semicolon and a space). -/
def dropLeadingSpace : List Char → List Char
  | ' ' :: cs => cs
  | cs => cs

/-- The source list of the named directive inside a serialized CSP value:
directives are separated by semicolons, tokens inside a directive by
spaces, and the first token is the directive name. -/
def cspSources (csp name : String) : List String :=
  let dirs := (splitOnChar ';' csp.data).map (fun d => splitOnChar ' ' (dropLeadingSpace d))
  match dirs.find? (fun toks => toks.head? == some name.data) with
  | some toks => (toks.drop 1).map (fun cs => String.mk cs)
  | none => []

/-- The third-party domains the specification names for the CSP allowlist:
the widget CDN, analytics, and the remote feature-flag service. -/
def specThirdPartyAllowlist : List String :=
  ["https://cdn.platform.openai.com",
   "https://api-js.mixpanel.com",
   "https://clientstream.launchdarkly.com",
   "https://events.launchdarkly.com"]

/-- The CSP keywords (not domains) that the script and style directives
carry in the source besides their domain list. -/
def cspKeywordSources : List String :=
  ["'unsafe-inline'", "'unsafe-eval'"]

/-- All third-party domains actually allowed by the header: the
spec-listed ones plus the remote agent API domain. -/
def actualThirdPartyAllowlist : List String :=
  specThirdPartyAllowlist ++ ["https://api.openai.com"]

/- ===== The create-session broker, modelled from the spec ===== -/

/-- Modelled from the spec: the environment configuration the broker
reads — a required secret key, a required public default workflow
identifier, both possibly absent at runtime (the source file
app/api/create-session/route.ts is not part of the snapshot). -/
structure Env where
  apiKey : Option String
  defaultWorkflowId : Option String
deriving DecidableEq, Repr

/-- Modelled from the spec: the optional fields of the request body — a
workflow identifier under either of two accepted keys (a nested
`workflow.id` or a flat `workflowId`) and a nested file-upload toggle. -/
structure RequestBody where
  workflowNestedId : Option String
  workflowFlatId : Option String
  fileUploadEnabled : Option Bool
deriving DecidableEq, Repr

/-- Modelled from the spec: an incoming broker request — HTTP method,
body, and the anonymous-identifier cookie if the client sent one. -/
structure BrokerRequest where
  method : String
  body : RequestBody
  cookie : Option String
deriving DecidableEq, Repr

/-- Modelled from the spec: a possibly-nested upstream error payload —
each layer may carry a human-readable message and may wrap an inner
error object. -/
inductive ErrPayload where
  | base (message : Option String)
  | wrap (message : Option String) (inner : ErrPayload)
deriving DecidableEq, Repr

/-- Modelled from the spec: the recursive search for the most specific
human-readable message in a nested error payload — an inner message
wins over the wrapper's own message. -/
def extractErrMessage : ErrPayload → Option String
  | .base msg => msg
  | .wrap msg inner =>
    match extractErrMessage inner with
    | some m => some m
    | none => msg

/-- Modelled from the spec: the single outbound authenticated request to
the remote agent API — the resolved workflow identifier, the resolved
anonymous user identifier, and the configuration toggle. -/
structure OutboundRequest where
  workflowId : String
  user : String
  fileUploadEnabled : Bool
deriving DecidableEq, Repr

/-- Modelled from the spec: what the remote agent API returns — an
opaque client credential on success, or a status code and a
possibly-nested error payload on failure. -/
inductive RemoteResult where
  | success (clientSecret : String)
  | failure (status : Nat) (payload : ErrPayload)
deriving DecidableEq, Repr

/-- Modelled from the spec: the taxonomy of broker response bodies —
the opaque credential on success, or one error kind per the error
taxonomy (method rejection, configuration error, validation error,
upstream error with the extracted message). -/
inductive BrokerBody where
  | credential (clientSecret : String)
  | methodNotAllowed
  | configError (message : String)
  | validationError (message : String)
  | upstreamError (message : String)
deriving DecidableEq, Repr

/-- Modelled from the spec: the cookie the broker sets — fixed name,
value = anonymous identifier, HttpOnly, 30-day expiry, path root. -/
structure CookieSpec where
  name : String
  value : String
  httpOnly : Bool
  maxAgeSeconds : Nat
  path : String
deriving DecidableEq, Repr

/-- Modelled from the spec: the observable outcome of one broker
invocation — HTTP status, response body, the cookie set (if any), and
the list of outbound network calls issued during the invocation. -/
structure BrokerResponse where
  status : Nat
  body : BrokerBody
  setCookie : Option CookieSpec
  outboundCalls : List OutboundRequest
deriving DecidableEq, Repr

/-- The fixed name of the anonymous-identifier cookie. -/
def cookieName : String := "chatkit_session_id"

/-- The cookie expiry horizon: 30 days, in seconds. -/
def cookieMaxAgeSeconds : Nat := 30 * 24 * 60 * 60

/-- Modelled from the spec: the known placeholder workflow identifiers
that the validation step rejects. -/
def placeholderWorkflowIds : List String := ["wf_placeholder"]

/-- Modelled from the spec: workflow-identifier resolution — the nested
body field, else the flat body field, else the configured default,
else the empty string. -/
def resolveWorkflowId (env : Env) (b : RequestBody) : String :=
  match b.workflowNestedId with
  | some v => v
  | none =>
    match b.workflowFlatId with
    | some v => v
    | none => env.defaultWorkflowId.getD ""

/-- Strip leading and trailing spaces from a character list. -/
def trimSpaces (cs : List Char) : List Char :=
  ((cs.dropWhile (· = ' ')).reverse.dropWhile (· = ' ')).reverse

/-- Modelled from the spec: a resolved workflow identifier is unusable
when it is empty (after trimming) or a known placeholder value. -/
def isInvalidWorkflowId (wf : String) : Bool :=
  (trimSpaces wf.data).isEmpty ||
    placeholderWorkflowIds.any (fun p => p.data == trimSpaces wf.data)

/-- Modelled from the spec: the create-session broker.  `freshId` stands
for the value `crypto.randomUUID()` would produce on this invocation;
`remote` stands for the remote agent API.  The broker checks the HTTP
method, then the secret key, then the workflow identifier — each
failure is surfaced before any outbound call — then resolves the
anonymous identifier from the cookie (or the fresh UUID), issues the
single outbound call, and maps the result: on success it relays the
credential and (re)sets the identifier cookie; on failure it surfaces
the extracted message with the upstream status and sets no cookie. -/
def createSession (env : Env) (req : BrokerRequest) (freshId : String)
    (remote : OutboundRequest → RemoteResult) : BrokerResponse :=
  if req.method ≠ "POST" then
    { status := 405, body := .methodNotAllowed, setCookie := none, outboundCalls := [] }
  else
    match env.apiKey with
    | none =>
      { status := 500, body := .configError "Missing OPENAI_API_KEY environment variable",
        setCookie := none, outboundCalls := [] }
    | some _ =>
      let wf := resolveWorkflowId env req.body
      if isInvalidWorkflowId wf then
        { status := 400, body := .validationError "Missing or placeholder workflow id",
          setCookie := none, outboundCalls := [] }
      else
        let userId := req.cookie.getD freshId
        let call : OutboundRequest :=
          { workflowId := wf, user := userId,
            fileUploadEnabled := req.body.fileUploadEnabled.getD true }
        match remote call with
        | .success secret =>
          { status := 200, body := .credential secret,
            setCookie := some { name := cookieName, value := userId, httpOnly := true,
                                maxAgeSeconds := cookieMaxAgeSeconds, path := "/" },
            outboundCalls := [call] }
        | .failure st payload =>
          { status := st,
            body := .upstreamError ((extractErrMessage payload).getD "Failed to create session"),
            setCookie := none, outboundCalls := [call] }

/- ===== The client session orchestrator, modelled from the spec ===== -/

/-- Modelled from the spec: the orchestrator's local state — the
liveness flag (true while mounted), the credential obtained so far,
and the session-error flag (the source ChatKitPanel.tsx is not part of
the snapshot). -/
structure OrchestratorState where
  isLive : Bool
  clientSecret : Option String
  sessionError : Option String
deriving DecidableEq, Repr

/-- Modelled from the spec: tearing the orchestrator down marks it
non-live. -/
def unmountOrchestrator (st : OrchestratorState) : OrchestratorState :=
  { st with isLive := false }

/-- Modelled from the spec: applying an in-flight session response to
the orchestrator state — every asynchronous state update is guarded by
the liveness check, so a response arriving when the component is no
longer live leaves the state untouched. -/
def applySessionResponse (st : OrchestratorState)
    (resp : Except String String) : OrchestratorState :=
  if st.isLive then
    match resp with
    | .ok secret => { st with clientSecret := some secret, sessionError := none }
    | .error e => { st with sessionError := some e }
  else st

/- ===== Concrete fixtures used by the witnesses ===== -/

/-- A fixture environment with a secret key and a usable default workflow. -/
def envOk : Env := { apiKey := some "sk-test-key", defaultWorkflowId := some "wf_default" }

/-- A fixture environment with the secret key absent. -/
def envNoKey : Env := { apiKey := none, defaultWorkflowId := some "wf_default" }

/-- An empty request body. -/
def bodyEmpty : RequestBody :=
  { workflowNestedId := none, workflowFlatId := none, fileUploadEnabled := none }

/-- A POST request with an empty body and no cookie. -/
def reqEmptyPost : BrokerRequest := { method := "POST", body := bodyEmpty, cookie := none }

/-- A GET request with an empty body and no cookie. -/
def reqEmptyGet : BrokerRequest := { method := "GET", body := bodyEmpty, cookie := none }

/-- A POST request whose flat workflow field carries the placeholder. -/
def reqPlaceholder : BrokerRequest :=
  { method := "POST",
    body := { workflowNestedId := none, workflowFlatId := some "wf_placeholder",
              fileUploadEnabled := none },
    cookie := none }

/-- A POST request with an empty body carrying an existing identifier cookie. -/
def reqWithCookie : BrokerRequest :=
  { method := "POST", body := bodyEmpty, cookie := some "user-123" }

/-- A remote agent API that always succeeds with a fixed credential. -/
def remoteOk : OutboundRequest → RemoteResult := fun _ => .success "ck_secret"

/-- A remote agent API that always fails with a nested error payload:
a generic wrapper message around a specific inner message. -/
def remoteNestedFail : OutboundRequest → RemoteResult :=
  fun _ => .failure 404 (.wrap (some "Internal server error")
                               (.base (some "Workflow not found")))

/- ===== Claim theorems ===== -/

/-- Claim C10: the webpack customization hook returns the configuration
with its resolve.alias mapping unchanged (it spreads the existing
aliases and adds none) and everything else untouched, i.e. it acts as
the identity on the alias mapping. -/
theorem c10_webpack_alias_identity {α : Type} (config : WebpackConfig α) :
    aliasEntries (webpackHook config) = aliasEntries config ∧
    (webpackHook config).rest = config.rest := by
  cases config with
  | mk a r => cases a <;> simp [webpackHook, aliasEntries]

/-- Claim C1 counterexample: the connect-src directive of the static CSP
header allows the remote agent API domain, which is neither the
product's own origin nor one of the third-party domains the claim
enumerates (widget CDN, analytics, feature-flag service), and the
script-src directive additionally carries the unsafe-eval keyword; so
the directives do not restrict sources to the claimed set "and to
nothing else". -/
theorem c1_csp_counterexample :
    ("https://api.openai.com" ∈ cspSources cspValue "connect-src" ∧
      "https://api.openai.com" ∉ "'self'" :: specThirdPartyAllowlist) ∧
    ("'unsafe-eval'" ∈ cspSources cspValue "script-src" ∧
      "'unsafe-eval'" ∉ "'self'" :: specThirdPartyAllowlist) := by
  decide

/-- Claim C1 (amended): every request path is matched by the single
static header rule, which applies the Content-Security-Policy header
whose script-src, style-src and connect-src directives restrict
sources to the product's own origin, the CSP keywords unsafe-inline
and unsafe-eval (script/style relaxations, not domains), and a fixed
allowlist of third-party domains: the widget CDN, analytics, the
feature-flag service, and the remote agent API domain — and to
nothing else. -/
theorem c1_csp_allowlist (path : String) (hp : path.data.head? = some '/') :
    ∃ rule ∈ nextHeaders, sourceMatches rule.source path = true ∧
      ∃ h ∈ rule.entries, h.key = "Content-Security-Policy" ∧
        ∀ d ∈ ["script-src", "style-src", "connect-src"],
          ∀ s ∈ cspSources h.value d,
            s = "'self'" ∨ s ∈ cspKeywordSources ∨ s ∈ actualThirdPartyAllowlist := by
  refine ⟨_, List.mem_singleton.mpr rfl, ?_, _, List.mem_singleton.mpr rfl, rfl, ?_⟩
  · simp [sourceMatches, hp]
  · decide

/-- Witness for C1 (amended) at the concrete path "/chat". -/
theorem c1_csp_allowlist_witness :
    ∃ rule ∈ nextHeaders, sourceMatches rule.source "/chat" = true ∧
      ∃ h ∈ rule.entries, h.key = "Content-Security-Policy" ∧
        ∀ d ∈ ["script-src", "style-src", "connect-src"],
          ∀ s ∈ cspSources h.value d,
            s = "'self'" ∨ s ∈ cspKeywordSources ∨ s ∈ actualThirdPartyAllowlist :=
  c1_csp_allowlist "/chat" rfl

/-- Claim C2: on a create-session (POST) request, if the secret key is
absent from the environment, the broker returns a configuration-error
response and issues no outbound network call. -/
theorem c2_missing_key (env : Env) (req : BrokerRequest) (freshId : String)
    (remote : OutboundRequest → RemoteResult)
    (hm : req.method = "POST") (hk : env.apiKey = none) :
    (∃ m, (createSession env req freshId remote).body = .configError m) ∧
    (createSession env req freshId remote).outboundCalls = [] := by
  simp [createSession, hm, hk]

/-- Witness for C2: the concrete key-less environment and an empty POST. -/
theorem c2_missing_key_witness :
    (∃ m, (createSession envNoKey reqEmptyPost "uuid-1" remoteOk).body = .configError m) ∧
    (createSession envNoKey reqEmptyPost "uuid-1" remoteOk).outboundCalls = [] :=
  c2_missing_key envNoKey reqEmptyPost "uuid-1" remoteOk rfl rfl

/-- Claim C4: every request to the broker whose method is not the
designated session-creation method (POST) gets a method-not-allowed
response (status 405), regardless of body and cookies. -/
theorem c4_method_not_allowed (env : Env) (req : BrokerRequest) (freshId : String)
    (remote : OutboundRequest → RemoteResult) (hm : req.method ≠ "POST") :
    (createSession env req freshId remote).status = 405 ∧
    (createSession env req freshId remote).body = .methodNotAllowed := by
  simp [createSession, hm]

/-- Witness for C4: a concrete GET request. -/
theorem c4_method_not_allowed_witness :
    (createSession envOk reqEmptyGet "uuid-2" remoteOk).status = 405 ∧
    (createSession envOk reqEmptyGet "uuid-2" remoteOk).body = .methodNotAllowed :=
  c4_method_not_allowed envOk reqEmptyGet "uuid-2" remoteOk (by decide)

/-- Claim C3: on a create-session (POST) request with the secret key
present, if the workflow identifier resolves to an empty string or a
known placeholder value, the broker returns a validation-error
response and issues no outbound call. -/
theorem c3_invalid_workflow (env : Env) (req : BrokerRequest) (freshId : String)
    (remote : OutboundRequest → RemoteResult)
    (hm : req.method = "POST") (hk : env.apiKey.isSome = true)
    (hw : isInvalidWorkflowId (resolveWorkflowId env req.body) = true) :
    (∃ m, (createSession env req freshId remote).body = .validationError m) ∧
    (createSession env req freshId remote).outboundCalls = [] := by
  obtain ⟨k, hk⟩ := Option.isSome_iff_exists.mp hk
  simp [createSession, hm, hk, hw]

/-- Witness for C3: a concrete request carrying the placeholder value. -/
theorem c3_invalid_workflow_witness :
    (∃ m, (createSession envOk reqPlaceholder "uuid-3" remoteOk).body = .validationError m) ∧
    (createSession envOk reqPlaceholder "uuid-3" remoteOk).outboundCalls = [] :=
  c3_invalid_workflow envOk reqPlaceholder "uuid-3" remoteOk rfl rfl (by decide)

/-- Claim C5: on a valid create-session request that carries an existing
anonymous-identifier cookie and whose outbound call succeeds, the
broker forwards exactly the cookie's identifier to the remote call
(the forwarded user list is exactly that one identifier) and re-sets
the same value in the response cookie, so repeated calls with the same
cookie round-trip the identical identifier. -/
theorem c5_cookie_roundtrip (env : Env) (req : BrokerRequest) (freshId : String)
    (remote : OutboundRequest → RemoteResult) (u secret : String)
    (hm : req.method = "POST") (hk : env.apiKey.isSome = true)
    (hw : isInvalidWorkflowId (resolveWorkflowId env req.body) = false)
    (hc : req.cookie = some u)
    (hr : remote { workflowId := resolveWorkflowId env req.body, user := u,
                   fileUploadEnabled := req.body.fileUploadEnabled.getD true }
          = .success secret) :
    (createSession env req freshId remote).outboundCalls.map OutboundRequest.user = [u] ∧
    ∃ c, (createSession env req freshId remote).setCookie = some c ∧ c.value = u := by
  obtain ⟨k, hk⟩ := Option.isSome_iff_exists.mp hk
  simp [createSession, hm, hk, hw, hc, hr]

/-- Witness for C5: a concrete request with cookie value "user-123". -/
theorem c5_cookie_roundtrip_witness :
    (createSession envOk reqWithCookie "uuid-4" remoteOk).outboundCalls.map
      OutboundRequest.user = ["user-123"] ∧
    ∃ c, (createSession envOk reqWithCookie "uuid-4" remoteOk).setCookie = some c ∧
      c.value = "user-123" :=
  c5_cookie_roundtrip envOk reqWithCookie "uuid-4" remoteOk "user-123" "ck_secret"
    rfl rfl (by decide) rfl rfl

/-- Claim C6: on a valid create-session request with no
anonymous-identifier cookie whose outbound call succeeds, the broker
uses the freshly generated identifier (the value produced by the
cryptographically random UUID generator, modelled by `freshId`): the
response body carries the opaque credential and the response sets the
cookie with the new identifier, HttpOnly, 30-day expiry, at path root. -/
theorem c6_fresh_identifier (env : Env) (req : BrokerRequest) (freshId : String)
    (remote : OutboundRequest → RemoteResult) (secret : String)
    (hm : req.method = "POST") (hk : env.apiKey.isSome = true)
    (hw : isInvalidWorkflowId (resolveWorkflowId env req.body) = false)
    (hc : req.cookie = none)
    (hr : remote { workflowId := resolveWorkflowId env req.body, user := freshId,
                   fileUploadEnabled := req.body.fileUploadEnabled.getD true }
          = .success secret) :
    (createSession env req freshId remote).body = .credential secret ∧
    (createSession env req freshId remote).setCookie =
      some { name := cookieName, value := freshId, httpOnly := true,
             maxAgeSeconds := 30 * 24 * 60 * 60, path := "/" } := by
  obtain ⟨k, hk⟩ := Option.isSome_iff_exists.mp hk
  simp [createSession, cookieMaxAgeSeconds, hm, hk, hw, hc, hr]

/-- Witness for C6: the empty POST request with no cookie. -/
theorem c6_fresh_identifier_witness :
    (createSession envOk reqEmptyPost "uuid-5" remoteOk).body = .credential "ck_secret" ∧
    (createSession envOk reqEmptyPost "uuid-5" remoteOk).setCookie =
      some { name := cookieName, value := "uuid-5", httpOnly := true,
             maxAgeSeconds := 30 * 24 * 60 * 60, path := "/" } :=
  c6_fresh_identifier envOk reqEmptyPost "uuid-5" remoteOk "ck_secret"
    rfl rfl (by decide) rfl rfl

/-- Claim C7: when the outbound call of an otherwise valid
create-session request fails with a nested error payload whose inner
object yields a human-readable message, the broker's response carries
that innermost message (not the wrapper's message), mirrors the remote
status code, and the invocation made exactly one outbound call (no
retry). -/
theorem c7_innermost_error (env : Env) (req : BrokerRequest) (freshId : String)
    (remote : OutboundRequest → RemoteResult) (st : Nat)
    (outerMsg : Option String) (inner : ErrPayload) (m : String)
    (hm : req.method = "POST") (hk : env.apiKey.isSome = true)
    (hw : isInvalidWorkflowId (resolveWorkflowId env req.body) = false)
    (hr : remote { workflowId := resolveWorkflowId env req.body,
                   user := req.cookie.getD freshId,
                   fileUploadEnabled := req.body.fileUploadEnabled.getD true }
          = .failure st (.wrap outerMsg inner))
    (hi : extractErrMessage inner = some m) :
    (createSession env req freshId remote).body = .upstreamError m ∧
    (createSession env req freshId remote).status = st ∧
    (createSession env req freshId remote).outboundCalls.length = 1 := by
  obtain ⟨k, hk⟩ := Option.isSome_iff_exists.mp hk
  have hx : extractErrMessage (.wrap outerMsg inner) = some m := by
    simp [extractErrMessage, hi]
  simp [createSession, hm, hk, hw, hr, hx]

/-- Witness for C7: the fixture upstream failure wraps the specific
message "Workflow not found" in a generic wrapper; the broker surfaces
the specific one with the upstream 404. -/
theorem c7_innermost_error_witness :
    (createSession envOk reqEmptyPost "uuid-6" remoteNestedFail).body =
      .upstreamError "Workflow not found" ∧
    (createSession envOk reqEmptyPost "uuid-6" remoteNestedFail).status = 404 ∧
    (createSession envOk reqEmptyPost "uuid-6" remoteNestedFail).outboundCalls.length = 1 :=
  c7_innermost_error envOk reqEmptyPost "uuid-6" remoteNestedFail 404
    (some "Internal server error") (.base (some "Workflow not found")) "Workflow not found"
    rfl rfl (by decide) rfl rfl

/-- Claim C8: every broker invocation performs at most one outbound
network call; every invocation on the success path (a credential is
returned) performs exactly one outbound call and sets exactly one
cookie; and a cookie is set only on the success path — the invocation
has no other side effects. -/
theorem c8_side_effects (env : Env) (req : BrokerRequest) (freshId : String)
    (remote : OutboundRequest → RemoteResult) :
    (createSession env req freshId remote).outboundCalls.length ≤ 1 ∧
    ((∃ s, (createSession env req freshId remote).body = .credential s) →
      (createSession env req freshId remote).outboundCalls.length = 1 ∧
      ∃ c, (createSession env req freshId remote).setCookie = some c) ∧
    ((createSession env req freshId remote).setCookie.isSome = true →
      ∃ s, (createSession env req freshId remote).body = .credential s) := by
  unfold createSession
  split
  · simp
  · split
    · simp
    · dsimp only
      split
      · simp
      · split <;> simp

/-- Witness for C8: on the concrete successful invocation, the success
path performed exactly one outbound call and set a cookie. -/
theorem c8_side_effects_witness :
    (createSession envOk reqWithCookie "uuid-7" remoteOk).outboundCalls.length = 1 ∧
    ∃ c, (createSession envOk reqWithCookie "uuid-7" remoteOk).setCookie = some c :=
  (c8_side_effects envOk reqWithCookie "uuid-7" remoteOk).2.1 ⟨"ck_secret", by decide⟩

/-- Claim C9: the client orchestrator never applies an asynchronous
state update after teardown — applying any in-flight session response
to an unmounted orchestrator leaves its state exactly unchanged (the
liveness check discards the effects). -/
theorem c9_discard_after_unmount (st : OrchestratorState) (resp : Except String String) :
    applySessionResponse (unmountOrchestrator st) resp = unmountOrchestrator st := by
  simp [applySessionResponse, unmountOrchestrator]
